import Mathlib

/-!
UPS monitor (`upsmonitor.go`): protocol client, poll loop and shutdown timer.

Shallow embedding of the NUT client (`Send`, `Login`, `GetVar`), of the
package-level shutdown timer (`startShutdown`, `cancelShutdown`) and of the body
of the poll loop in `onReady`.

Conventions.
* Go strings are Lean `String`s; the library functions used by the source
  (`strings.TrimSpace`, `strings.Split` with the one-character separator `"\""`,
  `strings.Contains`, `strings.HasPrefix`) work on the character list.
* Time is a natural number of nanoseconds; a `time.Duration` is an `Int`
  (64-bit, multiplication wraps).
* Everything the program does to its environment (tray icon, tooltip, toast,
  timer calls, sleeping, `exec`) is appended to a trace of `Event`s.
-/

namespace UpsMonitor

/-! ## Library functions -/

/-- Go `unicode.IsSpace`: the Unicode White_Space code points. -/
def isSpace (c : Char) : Bool :=
  c = '\t' || c = '\n' || c.toNat = 0x0B || c.toNat = 0x0C || c = '\r' || c = ' ' ||
  c.toNat = 0x85 || c.toNat = 0xA0 || c.toNat = 0x1680 ||
  (0x2000 ≤ c.toNat && c.toNat ≤ 0x200A) ||
  c.toNat = 0x2028 || c.toNat = 0x2029 || c.toNat = 0x202F || c.toNat = 0x205F ||
  c.toNat = 0x3000

/-- Remove the trailing white space of a character list. -/
def trimRight (l : List Char) : List Char :=
  ((l.reverse).dropWhile isSpace).reverse

/-- Go `strings.TrimSpace` on the character list: leading and trailing white space removed. -/
def trimSpaceChars (l : List Char) : List Char :=
  trimRight (l.dropWhile isSpace)

/-- Go `strings.TrimSpace`. -/
def TrimSpace (s : String) : String :=
  ⟨trimSpaceChars s.data⟩

/-- Go `strings.Split(s, sep)` for a separator of one character, on the character list:
the pieces between the occurrences of `sep`; always at least one piece. -/
def splitChars (sep : Char) : List Char → List (List Char)
  | [] => [[]]
  | c :: cs =>
    if c = sep then [] :: splitChars sep cs
    else
      match splitChars sep cs with
      | [] => [[c]]
      | seg :: rest => (c :: seg) :: rest

/-- Go `strings.Split(s, "\"")`. -/
def SplitQuote (s : String) : List String :=
  (splitChars '"' s.data).map String.mk

/-- Whether `sub` occurs in `l` as a contiguous block. -/
def containsChars (sub : List Char) : List Char → Bool
  | [] => sub.isEmpty
  | c :: cs => sub.isPrefixOf (c :: cs) || containsChars sub cs

/-- Go `strings.Contains`. -/
def Contains (s sub : String) : Bool :=
  containsChars sub.data s.data

/-- Go `strings.HasPrefix`. -/
def HasPrefix (s pre : String) : Bool :=
  pre.data.isPrefixOf s.data

/-! ## Configuration -/

/-- The fields of `Config` (the `int` fields as integers). -/
structure Config where
  Host : String
  Port : Int
  User : String
  Password : String
  UPSName : String
  PollInterval : Int
  ShutdownDelay : Int
  EnableNotifications : Bool
  Autostart : Bool
  deriving DecidableEq, Repr

/-- The value of `defaultConfig`. -/
def defaultConfig : Config :=
  { Host := "192.168.1.50", Port := 3493, User := "", Password := "", UPSName := "ups",
    PollInterval := 10000, ShutdownDelay := 120000, EnableNotifications := true,
    Autostart := true }

/-! ## NUT client -/

/-- What the connection does at one `Send`: the write fails, the read fails (deadline,
closed connection), or `ReadString` returns a line. -/
inductive Exchange where
  | writeFail
  | readFail
  | line (resp : String)
  deriving DecidableEq, Repr

/-- The error of a failed `Send`. -/
inductive NetError where
  | write
  | read
  deriving DecidableEq, Repr

/-- A `NutClient`: its configuration, the behaviour of the connection at the coming calls of
`Send`, and what was handed to `conn.Write` so far (oldest first). -/
structure NutClient where
  cfg : Config
  peer : List Exchange
  written : List String
  deriving DecidableEq, Repr

/-- The function `NewNutClient`, on a connection that will behave as `peer`. -/
def NewNutClient (cfg : Config) (peer : List Exchange) : NutClient :=
  { cfg := cfg, peer := peer, written := [] }

/-- The method `NutClient.Send`: write `cmd` and a line feed, read one line, trim it.
A connection with nothing left to say lets the read run into its deadline. -/
def NutClient.Send (n : NutClient) (cmd : String) : Except NetError String × NutClient :=
  let n1 := { n with written := n.written ++ [cmd ++ "\n"] }
  match n.peer with
  | [] => (.error .read, n1)
  | .writeFail :: rest => (.error .write, { n1 with peer := rest })
  | .readFail :: rest => (.error .read, { n1 with peer := rest })
  | .line resp :: rest => (.ok (TrimSpace resp), { n1 with peer := rest })

/-- The method `NutClient.Login`. -/
def NutClient.Login (n : NutClient) : Except String Unit × NutClient :=
  if n.cfg.User = "" then (.ok (), n)
  else
    match n.Send ("USERNAME " ++ n.cfg.User) with
    | (.error _, n1) => (.error "user auth failed", n1)
    | (.ok r, n1) =>
      if !HasPrefix r "OK" then (.error "user auth failed", n1)
      else
        match n1.Send ("PASSWORD " ++ n1.cfg.Password) with
        | (.error _, n2) => (.error "pass auth failed", n2)
        | (.ok r2, n2) =>
          if !HasPrefix r2 "OK" then (.error "pass auth failed", n2)
          else (.ok (), n2)

/-- The part of `GetVar` after `Send`: the sentinel on an error, else the second piece of
the response split at the double quotes, when there is one. -/
def getVarOf (r : Except NetError String) : String :=
  match r with
  | .error _ => "?"
  | .ok resp =>
    match SplitQuote resp with
    | _ :: s1 :: _ => s1
    | _ => "?"

/-- The method `NutClient.GetVar`. -/
def NutClient.GetVar (n : NutClient) (v : String) : String × NutClient :=
  let r := n.Send ("GET VAR " ++ n.cfg.UPSName ++ " " ++ v)
  (getVarOf r.1, r.2)

/-! ## Effects, timers and the state of the program -/

/-- What the program does to its environment. -/
inductive Event where
  | read (v : String)
  | setOK
  | setERR
  | setTooltip (text : String)
  | toast (title msg : String)
  | afterFunc (id : Nat) (d : Int)
  | stop (id : Nat)
  | exec (argv : List String)
  | sleep (d : Int)
  deriving DecidableEq, Repr

/-- A timer made by `time.AfterFunc`: the time at which it is due, whether `Stop` reached it
while it was pending, and whether its function has been started. -/
structure Timer where
  deadline : Nat
  stopped : Bool
  fired : Bool
  deriving DecidableEq, Repr

/-- The state: the clock (ns), the timers made so far (a timer is named by its position),
the package variable `shutdownTimer` (`none` is `nil`) and the trace (oldest first). -/
structure State where
  now : Nat
  timers : List Timer
  shutdownTimer : Option Nat
  trace : List Event
  deriving DecidableEq, Repr

/-- The state at the start of the poll loop. -/
def State.init : State :=
  { now := 0, timers := [], shutdownTimer := none, trace := [] }

/-- Append one event to the trace. -/
def emit (e : Event) (s : State) : State :=
  { s with trace := s.trace ++ [e] }

/-- Apply `f` to the element at position `i`, if there is one. -/
def modifyAt (f : Timer → Timer) : Nat → List Timer → List Timer
  | _, [] => []
  | 0, t :: ts => f t :: ts
  | i + 1, t :: ts => t :: modifyAt f i ts

/-- The method `Timer.Stop`: a pending timer will not fire; a timer that fired is left alone. -/
def Timer.Stop (t : Timer) : Timer :=
  if t.fired then t else { t with stopped := true }

/-- A timer that `Stop` has not reached and that has not fired. -/
def Timer.pending (t : Timer) : Bool :=
  !t.stopped && !t.fired

/-- Wrap an integer to the range of `int64`. -/
def wrapInt64 (x : Int) : Int :=
  (x + 2 ^ 63) % 2 ^ 64 - 2 ^ 63

/-- The constant `time.Millisecond`, in nanoseconds. -/
def Millisecond : Int := 1000000

/-- The expression `time.Duration(n) * time.Millisecond`. -/
def durationMs (n : Int) : Int :=
  wrapInt64 (wrapInt64 n * Millisecond)

/-- The function `notify`; `goos` is `runtime.GOOS`. -/
def notify (goos : String) (cfg : Config) (title msg : String) (s : State) : State :=
  if !cfg.EnableNotifications then s
  else if goos = "windows" then emit (.toast title msg) s
  else s

/-- The function handed to `time.AfterFunc` by `startShutdown`. -/
def shutdownCallback (goos : String) (cfg : Config) (s : State) : State :=
  let s1 := notify goos cfg "Shutdown" "PC wird jetzt heruntergefahren" s
  if goos = "windows" then emit (.exec ["shutdown", "/s", "/t", "0", "/f"]) s1
  else emit (.exec ["shutdown", "now"]) s1

/-- The function `startShutdown`. -/
def startShutdown (goos : String) (cfg : Config) (s : State) : State :=
  match s.shutdownTimer with
  | some _ => s
  | none =>
    let s1 := notify goos cfg "Stromausfall" "Shutdown Timer gestartet" s
    let d := durationMs cfg.ShutdownDelay
    let id := s1.timers.length
    { s1 with
      timers := s1.timers ++ [{ deadline := s1.now + d.toNat, stopped := false, fired := false }]
      shutdownTimer := some id
      trace := s1.trace ++ [.afterFunc id d] }

/-- The function `cancelShutdown`. -/
def cancelShutdown (goos : String) (cfg : Config) (s : State) : State :=
  match s.shutdownTimer with
  | none => s
  | some id =>
    let s1 := emit (.stop id) { s with timers := modifyAt Timer.Stop id s.timers }
    notify goos cfg "Stromversorgung" "Shutdown abgebrochen" { s1 with shutdownTimer := none }

/-- The function `setOK`. -/
def setOK (s : State) : State := emit .setOK s

/-- The function `setERR`. -/
def setERR (s : State) : State := emit .setERR s

/-- The call `time.Sleep(d)`: the clock moves on by `d`, not at all when `d` is negative. -/
def Sleep (d : Int) (s : State) : State :=
  { s with now := s.now + d.toNat, trace := s.trace ++ [.sleep d] }

/-- One pass through the body of the poll loop of `onReady`; `status` and `charge` are what
the two calls of `GetVar` return. -/
def pollTick (goos : String) (cfg : Config) (status charge : String) (s : State) : State :=
  let s0 := emit (.read "battery.charge") (emit (.read "ups.status") s)
  if status = "?" then
    emit (.setTooltip "Verbindung fehlgeschlagen!\nPrüfe verbindung, oder Logindaten") (setERR s0)
  else
    let r : String × State :=
      if Contains status "OL" then ("Online", cancelShutdown goos cfg (setOK s0))
      else if Contains status "OB" then ("Batterie", startShutdown goos cfg (setERR s0))
      else (status, s0)
    let s2 := emit (.setTooltip
      ("USV: " ++ cfg.UPSName ++ "\nStatus: " ++ r.1 ++ "\nLadung: " ++ charge ++ "%")) r.2
    Sleep (durationMs cfg.PollInterval) s2

/-- The runtime starts the function of timer `id`; it does so only for a timer that is due,
was not stopped and has not fired. -/
def fireTimer (goos : String) (cfg : Config) (id : Nat) (s : State) : State :=
  match s.timers[id]? with
  | none => s
  | some t =>
    if t.pending && decide (t.deadline ≤ s.now) then
      shutdownCallback goos cfg
        { s with timers := modifyAt (fun u => { u with fired := true }) id s.timers }
    else s

/-- What happens next: a pass through the poll loop, time going by (reads that block, late
wake-ups), or the runtime trying to fire a timer. -/
inductive Step where
  | tick (status charge : String)
  | elapse (d : Nat)
  | fire (id : Nat)
  deriving DecidableEq, Repr

/-- One step of the program. -/
def step (goos : String) (cfg : Config) (s : State) : Step → State
  | .tick status charge => pollTick goos cfg status charge s
  | .elapse d => { s with now := s.now + d }
  | .fire id => fireTimer goos cfg id s

/-- A run: the steps one after the other. -/
def run (goos : String) (cfg : Config) (steps : List Step) (s : State) : State :=
  steps.foldl (step goos cfg) s

/-- The statuses polled by the ticks of a schedule, in order. -/
def statuses : List Step → List String
  | [] => []
  | .tick status _ :: rest => status :: statuses rest
  | _ :: rest => statuses rest

/-- The states of the shutdown scheduler that the specification names. -/
inductive ShutdownTimerState where
  | Idle
  | Armed
  | Fired
  deriving DecidableEq, Repr

/-- The scheduler state a program state stands for: `Idle` without a handle, else `Fired`
when the timer behind the handle has fired and `Armed` when it has not. -/
def schedulerState (s : State) : ShutdownTimerState :=
  match s.shutdownTimer with
  | none => .Idle
  | some id =>
    match s.timers[id]? with
    | some t => if t.fired then .Fired else .Armed
    | none => .Armed

/-- Whether the function of timer `id` has been started. -/
def hasFired (id : Nat) (s : State) : Bool :=
  match s.timers[id]? with
  | some t => t.fired
  | none => false

/-- How many timers are pending. -/
def pendingCount (s : State) : Nat :=
  s.timers.countP Timer.pending

/-- How many timers the trace shows being made. -/
def armCount (tr : List Event) : Nat :=
  tr.countP fun e => match e with
    | .afterFunc _ _ => true
    | _ => false

/-! ## Notions of the specification -/

/-- The power states that the specification names. -/
inductive PowerState where
  | Connecting
  | Online
  | OnBattery
  | Degraded
  deriving DecidableEq, Repr

/-- The power state the specification assigns to a polled status: `Online` when it holds
`OL`, else `OnBattery` when it holds `OB`, else `Degraded`. -/
def targetState (status : String) : PowerState :=
  if Contains status "OL" then .Online
  else if Contains status "OB" then .OnBattery
  else .Degraded

/-- How many of the polled statuses move the power state into `Online` from another state,
`prev` being the state before the first of them. -/
def intoOnline : PowerState → List String → Nat
  | _, [] => 0
  | prev, st :: rest =>
    (if targetState st = .Online ∧ prev ≠ .Online then 1 else 0) + intoOnline (targetState st) rest

/-- Whether the most recent status holding a code was an `OB` one without `OL`, after one
more status; `onBatt` says so for the statuses before. -/
def codeStep (onBatt : Bool) (st : String) : Bool :=
  if Contains st "OL" then false
  else if Contains st "OB" then true
  else onBatt

/-- Whether the most recent status holding a code is an `OB` one without `OL`. -/
def lastCodeOB (onBatt : Bool) (l : List String) : Bool :=
  l.foldl codeStep onBatt

/-- How many of the polled statuses hold `OL` and come with the most recent earlier status
holding a code being an `OB` one without `OL`. -/
def restoreCount : Bool → List String → Nat
  | _, [] => 0
  | onBatt, st :: rest =>
    (if Contains st "OL" = true ∧ onBatt = true then 1 else 0) + restoreCount (codeStep onBatt st) rest

/-! ## Notions used in the statements -/

/-- The toast of `cancelShutdown`. -/
def abortToast : Event := .toast "Stromversorgung" "Shutdown abgebrochen"

/-- The toast of `startShutdown`. -/
def armToast : Event := .toast "Stromausfall" "Shutdown Timer gestartet"

/-- The events that `notify` adds to the trace. -/
def toasts (goos : String) (cfg : Config) (title msg : String) : List Event :=
  if cfg.EnableNotifications = true ∧ goos = "windows" then [.toast title msg] else []

/-- A step that is not a pass through the poll loop. -/
def Step.isTick : Step → Bool
  | .tick _ _ => true
  | _ => false

/-- Between two states the handle, the number of timers made, the number of `AfterFunc`
calls and of toasts of `startShutdown` are the same, and no more timers are pending. -/
def Frame (s t : State) : Prop :=
  t.shutdownTimer = s.shutdownTimer ∧ t.timers.length = s.timers.length ∧
  armCount t.trace = armCount s.trace ∧ t.trace.count armToast = s.trace.count armToast ∧
  pendingCount t ≤ pendingCount s

/-! ## Lemmas on the library functions -/

theorem isSpace_quote : isSpace '"' = false := by decide

theorem splitChars_ne_nil (sep : Char) (l : List Char) : splitChars sep l ≠ [] := by
  cases l with
  | nil => simp [splitChars]
  | cons c cs =>
    unfold splitChars
    split
    · simp
    · split <;> simp

theorem splitChars_of_not_mem (sep : Char) (l : List Char) (h : sep ∉ l) :
    splitChars sep l = [l] := by
  induction l with
  | nil => rfl
  | cons c cs ih =>
    have hc : c ≠ sep := fun e => h (by simp [e])
    have hcs : sep ∉ cs := fun e => h (by simp [e])
    simp [splitChars, hc, ih hcs]

theorem splitChars_append_sep (sep : Char) (a r : List Char) (h : sep ∉ a) :
    splitChars sep (a ++ sep :: r) = a :: splitChars sep r := by
  induction a with
  | nil => simp [splitChars]
  | cons c cs ih =>
    have hc : c ≠ sep := fun e => h (by simp [e])
    have hcs : sep ∉ cs := fun e => h (by simp [e])
    simp [splitChars, hc, ih hcs]

theorem exists_first_sep (sep : Char) (l : List Char) (h : 1 ≤ l.count sep) :
    ∃ a r, l = a ++ sep :: r ∧ sep ∉ a := by
  induction l with
  | nil => simp at h
  | cons c cs ih =>
    by_cases hc : c = sep
    · exact ⟨[], cs, by simp [hc], by simp⟩
    · have h1 : 1 ≤ cs.count sep := by
        rw [List.count_cons] at h
        simpa [hc] using h
      obtain ⟨a, r, hl, ha⟩ := ih h1
      refine ⟨c :: a, r, by simp [hl], ?_⟩
      simp only [List.mem_cons, not_or]
      exact ⟨fun e => hc e.symm, ha⟩

theorem dropWhile_append_keep (p : Char → Bool) (a m : List Char) (x : Char)
    (hx : p x = false) :
    (a ++ x :: m).dropWhile p = a.dropWhile p ++ x :: m := by
  induction a with
  | nil => simp [List.dropWhile, hx]
  | cons c cs ih =>
    by_cases hc : p c = true
    · simp [List.dropWhile, hc, ih]
    · simp [List.dropWhile, hc]

theorem not_mem_dropWhile (p : Char → Bool) (x : Char) (a : List Char) (h : x ∉ a) :
    x ∉ a.dropWhile p :=
  fun hm => h ((List.dropWhile_sublist p).subset hm)

theorem trimRight_keep (m c : List Char) (x : Char) (hx : isSpace x = false) :
    trimRight (m ++ x :: c) = m ++ x :: trimRight c := by
  unfold trimRight
  have : (m ++ x :: c).reverse = c.reverse ++ x :: m.reverse := by simp
  rw [this, dropWhile_append_keep isSpace _ _ _ hx]
  simp

theorem trimSpaceChars_keep (a m : List Char) (x : Char) (hx : isSpace x = false) :
    trimSpaceChars (a ++ x :: m) = a.dropWhile isSpace ++ trimRight (x :: m) := by
  unfold trimSpaceChars
  rw [dropWhile_append_keep isSpace _ _ _ hx]
  have h1 := trimRight_keep (a.dropWhile isSpace) m x hx
  have h2 := trimRight_keep [] m x hx
  simp only [List.nil_append] at h2
  rw [h1, h2]

theorem trimSpaceChars_no_quote (l : List Char) (h : '"' ∉ l) : '"' ∉ trimSpaceChars l := by
  unfold trimSpaceChars trimRight
  intro hm
  rw [List.mem_reverse] at hm
  have h1 := (List.dropWhile_sublist isSpace).subset hm
  rw [List.mem_reverse] at h1
  exact h ((List.dropWhile_sublist isSpace).subset h1)

/-- A successful `Send` followed by the rest of `GetVar`. -/
theorem getVar_line (n : NutClient) (v raw : String) (rest : List Exchange)
    (hpeer : n.peer = .line raw :: rest) :
    (n.GetVar v).1 = getVarOf (.ok (TrimSpace raw)) := by
  simp [NutClient.GetVar, NutClient.Send, hpeer]

/-! ## `GetVar` -/

/-- C4: when the line read by `Send` holds at least two double quotes, it is `a"b"c` with no
double quote in `a` nor in `b`, and `GetVar` returns exactly `b`, the text between the first
and the second double quote; the value returned holds no double quote. -/
theorem getVar_first_quoted (n : NutClient) (v raw : String) (rest : List Exchange)
    (hpeer : n.peer = .line raw :: rest) (h2 : 2 ≤ raw.data.count '"') :
    ∃ a b c : List Char, raw.data = a ++ '"' :: (b ++ '"' :: c) ∧ '"' ∉ a ∧ '"' ∉ b ∧
      (n.GetVar v).1 = String.mk b ∧ '"' ∉ (n.GetVar v).1.data := by
  obtain ⟨a, r, hl, ha⟩ := exists_first_sep '"' raw.data (by omega)
  have hr : 1 ≤ r.count '"' := by
    rw [hl, List.count_append, List.count_cons_self, List.count_eq_zero_of_not_mem ha] at h2
    omega
  obtain ⟨b, c, hr2, hb⟩ := exists_first_sep '"' r hr
  have hval : (n.GetVar v).1 = String.mk b := by
    rw [getVar_line n v raw rest hpeer]
    have htrim : (TrimSpace raw).data =
        a.dropWhile isSpace ++ '"' :: (b ++ '"' :: trimRight c) := by
      show trimSpaceChars raw.data = _
      rw [hl, hr2, trimSpaceChars_keep a _ '"' isSpace_quote]
      have h1 := trimRight_keep ['"'] (b ++ '"' :: c) '"' isSpace_quote
      have h2 := trimRight_keep ('"' :: b) c '"' isSpace_quote
      simp only [List.cons_append, List.nil_append, List.singleton_append] at h1 h2 ⊢
      have h3 := trimRight_keep [] (b ++ '"' :: c) '"' isSpace_quote
      simp only [List.nil_append] at h3
      rw [h3]
      have h4 := trimRight_keep b c '"' isSpace_quote
      rw [h4]
    have hsplit : SplitQuote (TrimSpace raw) =
        String.mk (a.dropWhile isSpace) :: String.mk b ::
          (splitChars '"' (trimRight c)).map String.mk := by
      unfold SplitQuote
      rw [htrim, splitChars_append_sep '"' _ _ (not_mem_dropWhile isSpace '"' a ha),
        splitChars_append_sep '"' _ _ hb]
      simp
    simp [getVarOf, hsplit]
  refine ⟨a, b, c, by rw [hl, hr2], ha, hb, hval, ?_⟩
  rw [hval]
  exact hb

/-- C4, on the line of the specification: `VAR ups battery.charge "87"` yields `87`. -/
theorem getVar_first_quoted_witness :
    ((NewNutClient defaultConfig [.line "VAR ups battery.charge \"87\"\n"]).GetVar
        "battery.charge").1 = "87" ∧
    ∃ a b c : List Char,
      ("VAR ups battery.charge \"87\"\n" : String).data = a ++ '"' :: (b ++ '"' :: c) ∧
      '"' ∉ a ∧ '"' ∉ b ∧
      ((NewNutClient defaultConfig [.line "VAR ups battery.charge \"87\"\n"]).GetVar
        "battery.charge").1 = String.mk b ∧
      '"' ∉ ((NewNutClient defaultConfig [.line "VAR ups battery.charge \"87\"\n"]).GetVar
        "battery.charge").1.data :=
  ⟨by decide,
    getVar_first_quoted (NewNutClient defaultConfig [.line "VAR ups battery.charge \"87\"\n"])
      "battery.charge" "VAR ups battery.charge \"87\"\n" [] rfl (by decide)⟩

/-- C5 as stated fails: the line `VAR ups battery.charge "87` holds a single double quote,
so no pair of them, and `GetVar` returns `87`, not the sentinel. -/
theorem getVar_single_quote_not_sentinel :
    ¬ ∀ (n : NutClient) (v raw : String) (rest : List Exchange),
        n.peer = .line raw :: rest → raw.data.count '"' < 2 → (n.GetVar v).1 = "?" := by
  intro h
  have h1 := h (NewNutClient defaultConfig [.line "VAR ups battery.charge \"87\n"])
    "battery.charge" "VAR ups battery.charge \"87\n" [] rfl (by decide)
  revert h1
  decide

/-- C5, amended: `GetVar` returns the sentinel `?` when `Send` fails and when the line read
holds no double quote; when the line holds one double quote only, it returns the text after
it (trailing white space removed). It returns a string in every case, never an error. -/
theorem getVar_sentinel (n : NutClient) (v : String) :
    ((∀ raw rest, n.peer ≠ .line raw :: rest) → (n.GetVar v).1 = "?") ∧
    (∀ raw rest, n.peer = .line raw :: rest → '"' ∉ raw.data → (n.GetVar v).1 = "?") ∧
    (∀ raw rest a b, n.peer = .line raw :: rest → raw.data = a ++ '"' :: b → '"' ∉ a →
      '"' ∉ b → (n.GetVar v).1 = String.mk (trimRight b)) := by
  refine ⟨?_, ?_, ?_⟩
  · intro h
    unfold NutClient.GetVar NutClient.Send
    cases hp : n.peer with
    | nil => simp [getVarOf]
    | cons e rest =>
      cases e with
      | writeFail => simp [getVarOf]
      | readFail => simp [getVarOf]
      | line raw => exact absurd hp (h raw rest)
  · intro raw rest hpeer hq
    rw [getVar_line n v raw rest hpeer]
    have hs : SplitQuote (TrimSpace raw) = [TrimSpace raw] := by
      unfold SplitQuote
      have hd : (TrimSpace raw).data = trimSpaceChars raw.data := rfl
      rw [hd, splitChars_of_not_mem '"' _ (trimSpaceChars_no_quote raw.data hq)]
      rfl
    simp [getVarOf, hs]
  · intro raw rest a b hpeer hl ha hb
    rw [getVar_line n v raw rest hpeer]
    have htrim : (TrimSpace raw).data = a.dropWhile isSpace ++ '"' :: trimRight b := by
      show trimSpaceChars raw.data = _
      rw [hl, trimSpaceChars_keep a _ '"' isSpace_quote]
      have h3 := trimRight_keep [] b '"' isSpace_quote
      simp only [List.nil_append] at h3
      rw [h3]
    have hb2 : '"' ∉ trimRight b := by
      unfold trimRight
      intro hm
      rw [List.mem_reverse] at hm
      have h1 := (List.dropWhile_sublist isSpace).subset hm
      rw [List.mem_reverse] at h1
      exact hb h1
    have hsplit : SplitQuote (TrimSpace raw) =
        [String.mk (a.dropWhile isSpace), String.mk (trimRight b)] := by
      unfold SplitQuote
      rw [htrim, splitChars_append_sep '"' _ _ (not_mem_dropWhile isSpace '"' a ha),
        splitChars_of_not_mem '"' _ hb2]
      simp
    simp [getVarOf, hsplit]

/-- C5, amended, at a read that fails, at `ERR UNKNOWN-UPS` and at
`VAR ups battery.charge "87`. -/
theorem getVar_sentinel_witness :
    ((NewNutClient defaultConfig [.readFail]).GetVar "ups.status").1 = "?" ∧
    ((NewNutClient defaultConfig [.line "ERR UNKNOWN-UPS\n"]).GetVar "ups.status").1 = "?" ∧
    ((NewNutClient defaultConfig [.line "VAR ups battery.charge \"87\n"]).GetVar
      "battery.charge").1 = String.mk (trimRight "87\n".data) :=
  ⟨(getVar_sentinel (NewNutClient defaultConfig [.readFail]) "ups.status").1
      (by intro raw rest h; cases h),
    (getVar_sentinel (NewNutClient defaultConfig [.line "ERR UNKNOWN-UPS\n"]) "ups.status").2.1
      "ERR UNKNOWN-UPS\n" [] rfl (by decide),
    (getVar_sentinel (NewNutClient defaultConfig [.line "VAR ups battery.charge \"87\n"])
      "battery.charge").2.2 "VAR ups battery.charge \"87\n" [] "VAR ups battery.charge ".data
      "87\n".data rfl (by decide) (by decide) (by decide)⟩

/-! ## `Login` -/

/-- C9: with an empty user `Login` succeeds and writes nothing. With a user it writes
`USERNAME <user>`; it writes `PASSWORD <pass>` after that exactly when the first exchange
gave a line whose trimmed text starts with `OK`, and nothing else; it succeeds exactly when
both exchanges gave a line whose trimmed text starts with `OK`. -/
theorem login_contract (n : NutClient) :
    (n.cfg.User = "" → n.Login = (.ok (), n)) ∧
    (n.cfg.User ≠ "" →
      (n.Login.1 = .ok () ↔
        ∃ l1 l2 rest, n.peer = .line l1 :: .line l2 :: rest ∧
          HasPrefix (TrimSpace l1) "OK" = true ∧ HasPrefix (TrimSpace l2) "OK" = true) ∧
      ((∃ l1 rest, n.peer = .line l1 :: rest ∧ HasPrefix (TrimSpace l1) "OK" = true) →
        n.Login.2.written = n.written ++
          ["USERNAME " ++ n.cfg.User ++ "\n", "PASSWORD " ++ n.cfg.Password ++ "\n"]) ∧
      ((¬ ∃ l1 rest, n.peer = .line l1 :: rest ∧ HasPrefix (TrimSpace l1) "OK" = true) →
        n.Login.2.written = n.written ++ ["USERNAME " ++ n.cfg.User ++ "\n"])) := by
  refine ⟨fun h => by simp [NutClient.Login, h], fun hu => ?_⟩
  cases hp : n.peer with
  | nil => simp [NutClient.Login, NutClient.Send, hu, hp]
  | cons e rest =>
    cases e with
    | writeFail => simp [NutClient.Login, NutClient.Send, hu, hp]
    | readFail => simp [NutClient.Login, NutClient.Send, hu, hp]
    | line l1 =>
      by_cases h1 : HasPrefix (TrimSpace l1) "OK" = true
      · cases rest with
        | nil => simp [NutClient.Login, NutClient.Send, hu, hp, h1]
        | cons e2 rest2 =>
          cases e2 with
          | writeFail => simp [NutClient.Login, NutClient.Send, hu, hp, h1]
          | readFail => simp [NutClient.Login, NutClient.Send, hu, hp, h1]
          | line l2 =>
            by_cases h2 : HasPrefix (TrimSpace l2) "OK" = true
            · simp [NutClient.Login, NutClient.Send, hu, hp, h1, h2]
              exact ⟨l1, l2, ⟨rfl, rfl⟩, h1, h2⟩
            · simp [NutClient.Login, NutClient.Send, hu, hp, h1, h2]
      · simp [NutClient.Login, NutClient.Send, hu, hp, h1]
        intro x y hx
        subst hx
        intro r _ hok
        exact absurd hok h1

/-- C9 at three clients: no user; user `monitor` with two `OK` answers; user `monitor` with
a refused user name. -/
theorem login_contract_witness :
    (NewNutClient defaultConfig [.line "OK\n"]).Login =
      (.ok (), NewNutClient defaultConfig [.line "OK\n"]) ∧
    (NewNutClient { defaultConfig with User := "monitor", Password := "pw" }
        [.line "OK\n", .line "OK\n"]).Login.2.written = ["USERNAME monitor\n", "PASSWORD pw\n"] ∧
    (NewNutClient { defaultConfig with User := "monitor", Password := "pw" }
        [.line "ERR ACCESS-DENIED\n", .line "OK\n"]).Login.2.written = ["USERNAME monitor\n"] :=
  ⟨(login_contract (NewNutClient defaultConfig [.line "OK\n"])).1 rfl,
    ((login_contract (NewNutClient { defaultConfig with User := "monitor", Password := "pw" }
        [.line "OK\n", .line "OK\n"])).2 (by decide)).2.1
      ⟨"OK\n", [.line "OK\n"], rfl, by decide⟩,
    ((login_contract (NewNutClient { defaultConfig with User := "monitor", Password := "pw" }
        [.line "ERR ACCESS-DENIED\n", .line "OK\n"])).2 (by decide)).2.2
      (by
        rintro ⟨l1, rest, hp, hok⟩
        have hl : l1 = "ERR ACCESS-DENIED\n" := by
          have := (List.cons.inj hp).1
          injection this with h
          exact h.symm
        subst hl
        revert hok
        decide)⟩

/-! ## Lemmas on the timer and the poll loop -/

theorem wrapInt64_of_range (x : Int) (h1 : -(2 ^ 63) ≤ x) (h2 : x < 2 ^ 63) :
    wrapInt64 x = x := by
  unfold wrapInt64
  rw [Int.emod_eq_of_lt (by omega) (by omega)]
  omega

/-- Without overflow the duration is the number of milliseconds times a million. -/
theorem durationMs_of_range (n : Int) (h1 : 0 ≤ n) (h2 : n * 1000000 < 2 ^ 63) :
    durationMs n = n * 1000000 := by
  unfold durationMs Millisecond
  rw [wrapInt64_of_range n (by omega) (by omega), wrapInt64_of_range _ (by omega) h2]

theorem notify_eq (goos : String) (cfg : Config) (title msg : String) (s : State) :
    notify goos cfg title msg s = { s with trace := s.trace ++ toasts goos cfg title msg } := by
  unfold notify toasts emit
  cases cfg.EnableNotifications <;> by_cases hg : goos = "windows" <;> simp [hg]

theorem length_modifyAt (f : Timer → Timer) (i : Nat) (l : List Timer) :
    (modifyAt f i l).length = l.length := by
  induction l generalizing i with
  | nil => cases i <;> rfl
  | cons t ts ih => cases i <;> simp [modifyAt, ih]

theorem getElem?_modifyAt (f : Timer → Timer) (i j : Nat) (l : List Timer) :
    (modifyAt f i l)[j]? = if i = j then (l[j]?).map f else l[j]? := by
  induction l generalizing i j with
  | nil => cases i <;> simp [modifyAt]
  | cons t ts ih =>
    cases i with
    | zero => cases j <;> simp [modifyAt]
    | succ i => cases j <;> simp [modifyAt, ih]

theorem startShutdown_eq_none (goos : String) (cfg : Config) (s : State)
    (h : s.shutdownTimer = none) :
    startShutdown goos cfg s =
      { now := s.now
        timers := s.timers ++ [{ deadline := s.now + (durationMs cfg.ShutdownDelay).toNat,
                                 stopped := false, fired := false }]
        shutdownTimer := some s.timers.length
        trace := s.trace ++ toasts goos cfg "Stromausfall" "Shutdown Timer gestartet" ++
          [.afterFunc s.timers.length (durationMs cfg.ShutdownDelay)] } := by
  simp [startShutdown, h, notify_eq]

theorem startShutdown_eq_some (goos : String) (cfg : Config) (s : State) (id : Nat)
    (h : s.shutdownTimer = some id) : startShutdown goos cfg s = s := by
  simp [startShutdown, h]

theorem cancelShutdown_eq_none (goos : String) (cfg : Config) (s : State)
    (h : s.shutdownTimer = none) : cancelShutdown goos cfg s = s := by
  simp [cancelShutdown, h]

theorem cancelShutdown_eq_some (goos : String) (cfg : Config) (s : State) (id : Nat)
    (h : s.shutdownTimer = some id) :
    cancelShutdown goos cfg s =
      { now := s.now
        timers := modifyAt Timer.Stop id s.timers
        shutdownTimer := none
        trace := s.trace ++ [.stop id] ++ toasts goos cfg "Stromversorgung" "Shutdown abgebrochen" } := by
  simp [cancelShutdown, h, notify_eq, emit]

theorem contains_sentinel_OL : Contains "?" "OL" = false := by decide

theorem contains_sentinel_OB : Contains "?" "OB" = false := by decide

/-- The pass of the poll loop for the sentinel. -/
theorem pollTick_sentinel (goos : String) (cfg : Config) (charge : String) (s : State) :
    pollTick goos cfg "?" charge s =
      { s with trace := s.trace ++ [.read "ups.status", .read "battery.charge", .setERR,
          .setTooltip "Verbindung fehlgeschlagen!\nPrüfe verbindung, oder Logindaten"] } := by
  simp [pollTick, emit, setERR]

/-- The pass of the poll loop for a status that holds `OL`. -/
theorem pollTick_OL (goos : String) (cfg : Config) (status charge : String) (s : State)
    (h : Contains status "OL" = true) :
    pollTick goos cfg status charge s =
      Sleep (durationMs cfg.PollInterval)
        (emit (.setTooltip ("USV: " ++ cfg.UPSName ++ "\nStatus: " ++ "Online" ++ "\nLadung: " ++ charge ++ "%"))
          (cancelShutdown goos cfg
            (setOK (emit (.read "battery.charge") (emit (.read "ups.status") s))))) := by
  have hq : status ≠ "?" := by
    intro e
    rw [e, contains_sentinel_OL] at h
    exact Bool.noConfusion h
  simp [pollTick, hq, h]

/-- The pass of the poll loop for a status that holds `OB` and not `OL`. -/
theorem pollTick_OB (goos : String) (cfg : Config) (status charge : String) (s : State)
    (hl : Contains status "OL" = false) (h : Contains status "OB" = true) :
    pollTick goos cfg status charge s =
      Sleep (durationMs cfg.PollInterval)
        (emit (.setTooltip ("USV: " ++ cfg.UPSName ++ "\nStatus: " ++ "Batterie" ++ "\nLadung: " ++ charge ++ "%"))
          (startShutdown goos cfg
            (setERR (emit (.read "battery.charge") (emit (.read "ups.status") s))))) := by
  have hq : status ≠ "?" := by
    intro e
    rw [e, contains_sentinel_OB] at h
    exact Bool.noConfusion h
  simp [pollTick, hq, hl, h]

/-- The pass of the poll loop for a status other than the sentinel that holds no code. -/
theorem pollTick_other (goos : String) (cfg : Config) (status charge : String) (s : State)
    (hq : status ≠ "?") (hl : Contains status "OL" = false) (h : Contains status "OB" = false) :
    pollTick goos cfg status charge s =
      { s with
        now := s.now + (durationMs cfg.PollInterval).toNat
        trace := s.trace ++ [.read "ups.status", .read "battery.charge",
          .setTooltip ("USV: " ++ cfg.UPSName ++ "\nStatus: " ++ status ++ "\nLadung: " ++ charge ++ "%"),
          .sleep (durationMs cfg.PollInterval)] } := by
  simp [pollTick, hq, hl, h, emit, Sleep]

theorem lastCodeOB_iff (b : Bool) (l : List String) :
    lastCodeOB b l = true ↔
      (∃ pre st post, l = pre ++ st :: post ∧ Contains st "OB" = true ∧
        Contains st "OL" = false ∧
        ∀ t ∈ post, Contains t "OL" = false ∧ Contains t "OB" = false) ∨
      (b = true ∧ ∀ t ∈ l, Contains t "OL" = false ∧ Contains t "OB" = false) := by
  induction l generalizing b with
  | nil => simp [lastCodeOB]
  | cons x l ih =>
    have hstep : lastCodeOB b (x :: l) = lastCodeOB (codeStep b x) l := rfl
    rw [hstep, ih]
    constructor
    · rintro (⟨pre, st, post, hl, h1, h2, h3⟩ | ⟨hc, hn⟩)
      · exact Or.inl ⟨x :: pre, st, post, by simp [hl], h1, h2, h3⟩
      · unfold codeStep at hc
        by_cases hOL : Contains x "OL" = true
        · simp [hOL] at hc
        · by_cases hOB : Contains x "OB" = true
          · exact Or.inl ⟨[], x, l, rfl, hOB, by simpa using hOL, hn⟩
          · simp [hOL, hOB] at hc
            refine Or.inr ⟨hc, ?_⟩
            intro t ht
            rcases List.mem_cons.1 ht with rfl | ht
            · exact ⟨by simpa using hOL, by simpa using hOB⟩
            · exact hn t ht
    · rintro (⟨pre, st, post, hl, h1, h2, h3⟩ | ⟨hb, hn⟩)
      · cases pre with
        | nil =>
          simp at hl
          obtain ⟨rfl, rfl⟩ := hl
          exact Or.inr ⟨by simp [codeStep, h1, h2], h3⟩
        | cons p pre =>
          simp at hl
          obtain ⟨rfl, rfl⟩ := hl
          exact Or.inl ⟨pre, st, post, rfl, h1, h2, h3⟩
      · have hx := hn x (by simp)
        exact Or.inr ⟨by simp [codeStep, hx.1, hx.2, hb], fun t ht => hn t (by simp [ht])⟩

/-- The handle after a pass of the poll loop. -/
theorem pollTick_shutdownTimer (goos : String) (cfg : Config) (status charge : String)
    (s : State) :
    (pollTick goos cfg status charge s).shutdownTimer =
      if Contains status "OL" = true then none
      else if Contains status "OB" = true then
        (match s.shutdownTimer with
          | some id => some id
          | none => some s.timers.length)
      else s.shutdownTimer := by
  by_cases hl : Contains status "OL" = true
  · rw [pollTick_OL goos cfg status charge s hl]
    cases hs : s.shutdownTimer with
    | none => simp [hl, Sleep, emit, setOK, cancelShutdown, hs]
    | some id => simp [hl, Sleep, emit, setOK, cancelShutdown, hs, notify_eq]
  · have hl2 : Contains status "OL" = false := by simpa using hl
    by_cases hb : Contains status "OB" = true
    · rw [pollTick_OB goos cfg status charge s hl2 hb]
      cases hs : s.shutdownTimer with
      | none => simp [hl2, hb, Sleep, emit, setERR, startShutdown, hs, notify_eq]
      | some id => simp [hl2, hb, Sleep, emit, setERR, startShutdown, hs]
    · have hb2 : Contains status "OB" = false := by simpa using hb
      by_cases hq : status = "?"
      · subst hq
        simp [pollTick_sentinel, hl2, hb2]
      · simp [pollTick_other goos cfg status charge s hq hl2 hb2, hl2, hb2]

theorem pollTick_isSome (goos : String) (cfg : Config) (status charge : String) (s : State) :
    (pollTick goos cfg status charge s).shutdownTimer.isSome =
      codeStep s.shutdownTimer.isSome status := by
  rw [pollTick_shutdownTimer]
  unfold codeStep
  by_cases hl : Contains status "OL" = true
  · simp [hl]
  · by_cases hb : Contains status "OB" = true
    · cases hs : s.shutdownTimer <;> simp [hl, hb]
    · simp [hl, hb]

/-- What the attempt to fire a timer does: nothing, or the timer was pending and due, is
now marked as fired and the callback has run. -/
theorem fireTimer_cases (goos : String) (cfg : Config) (id : Nat) (s : State) :
    fireTimer goos cfg id s = s ∨
    ∃ t argv, s.timers[id]? = some t ∧ t.pending = true ∧ t.deadline ≤ s.now ∧
      fireTimer goos cfg id s =
        { s with
          timers := modifyAt (fun u => { u with fired := true }) id s.timers
          trace := s.trace ++ toasts goos cfg "Shutdown" "PC wird jetzt heruntergefahren" ++
            [.exec argv] } := by
  unfold fireTimer
  cases ht : s.timers[id]? with
  | none => exact Or.inl rfl
  | some t =>
    by_cases hp : t.pending = true ∧ t.deadline ≤ s.now
    · refine Or.inr ⟨t, if goos = "windows" then ["shutdown", "/s", "/t", "0", "/f"]
        else ["shutdown", "now"], rfl, hp.1, hp.2, ?_⟩
      by_cases hg : goos = "windows" <;>
        simp [hp.1, hp.2, shutdownCallback, notify_eq, emit, hg]
    · left
      have : (t.pending && decide (t.deadline ≤ s.now)) = false := by
        cases h1 : t.pending <;> simp_all
      simp [this]

theorem fireTimer_shutdownTimer (goos : String) (cfg : Config) (id : Nat) (s : State) :
    (fireTimer goos cfg id s).shutdownTimer = s.shutdownTimer := by
  rcases fireTimer_cases goos cfg id s with h | ⟨t, argv, _, _, _, h⟩ <;> rw [h]

theorem step_isSome (goos : String) (cfg : Config) (s : State) (st : Step) :
    (step goos cfg s st).shutdownTimer.isSome =
      lastCodeOB s.shutdownTimer.isSome (statuses [st]) := by
  cases st with
  | tick status charge => simp [step, statuses, lastCodeOB, pollTick_isSome]
  | elapse d => simp [step, statuses, lastCodeOB]
  | fire id => simp [step, statuses, lastCodeOB, fireTimer_shutdownTimer]

theorem statuses_cons (st : Step) (rest : List Step) :
    statuses (st :: rest) = statuses [st] ++ statuses rest := by
  cases st <;> simp [statuses]

theorem run_isSome (goos : String) (cfg : Config) (steps : List Step) (s : State) :
    (run goos cfg steps s).shutdownTimer.isSome =
      lastCodeOB s.shutdownTimer.isSome (statuses steps) := by
  induction steps generalizing s with
  | nil => rfl
  | cons st rest ih =>
    have hr : run goos cfg (st :: rest) s = run goos cfg rest (step goos cfg s st) := rfl
    rw [hr, ih, step_isSome, statuses_cons st rest]
    simp [lastCodeOB, List.foldl_append]

theorem Frame.rfl (s : State) : Frame s s :=
  ⟨Eq.refl _, Eq.refl _, Eq.refl _, Eq.refl _, Nat.le_refl _⟩

theorem Frame.trans {s t u : State} (h1 : Frame s t) (h2 : Frame t u) : Frame s u :=
  ⟨h2.1.trans h1.1, h2.2.1.trans h1.2.1, h2.2.2.1.trans h1.2.2.1,
    h2.2.2.2.1.trans h1.2.2.2.1, Nat.le_trans h2.2.2.2.2 h1.2.2.2.2⟩

theorem countP_modifyAt_le (f : Timer → Timer) (hf : ∀ t, (f t).pending = true → t.pending = true)
    (i : Nat) (l : List Timer) :
    (modifyAt f i l).countP Timer.pending ≤ l.countP Timer.pending := by
  induction l generalizing i with
  | nil => cases i <;> simp [modifyAt]
  | cons t ts ih =>
    cases i with
    | zero =>
      simp only [modifyAt, List.countP_cons]
      by_cases h : (f t).pending = true
      · simp [h, hf t h]
      · simp [h]
    | succ i =>
      simp only [modifyAt, List.countP_cons]
      have := ih i
      omega

theorem pending_fired (t : Timer) :
    ({ t with fired := true } : Timer).pending = true → t.pending = true := by
  simp [Timer.pending]

theorem armCount_append (a b : List Event) : armCount (a ++ b) = armCount a + armCount b := by
  simp [armCount, List.countP_append]

theorem armCount_toasts (goos : String) (cfg : Config) (title msg : String) :
    armCount (toasts goos cfg title msg) = 0 := by
  unfold toasts armCount
  split <;> simp

theorem count_armToast_shutdown (goos : String) (cfg : Config) :
    (toasts goos cfg "Shutdown" "PC wird jetzt heruntergefahren").count armToast = 0 := by
  unfold toasts armToast
  split <;> simp

theorem count_armToast_arm (goos : String) (cfg : Config) :
    (toasts goos cfg "Stromausfall" "Shutdown Timer gestartet").count armToast =
      (toasts goos cfg "Stromausfall" "Shutdown Timer gestartet").length := by
  unfold toasts armToast
  split <;> simp

theorem fireTimer_frame (goos : String) (cfg : Config) (id : Nat) (s : State) :
    Frame s (fireTimer goos cfg id s) := by
  rcases fireTimer_cases goos cfg id s with h | ⟨t, argv, _, _, _, h⟩
  · rw [h]
    exact Frame.rfl s
  · rw [h]
    refine ⟨rfl, by simp [length_modifyAt], ?_, ?_, ?_⟩
    · simp [armCount_append, armCount_toasts]
      simp [armCount]
    · simp only [List.count_append, count_armToast_shutdown]
      simp [armToast]
    · exact countP_modifyAt_le _ pending_fired id s.timers

theorem elapse_frame (d : Nat) (s : State) : Frame s { s with now := s.now + d } :=
  ⟨rfl, rfl, rfl, rfl, Nat.le_refl _⟩

/-- A pass of the poll loop that holds no `OL`, and holds no `OB` or finds the handle set,
changes nothing about the timers. -/
theorem pollTick_frame (goos : String) (cfg : Config) (status charge : String) (s : State)
    (hl : Contains status "OL" = false)
    (h : Contains status "OB" = false ∨ s.shutdownTimer.isSome = true) :
    Frame s (pollTick goos cfg status charge s) := by
  by_cases hb : Contains status "OB" = true
  · have hs : s.shutdownTimer.isSome = true := by
      rcases h with h | h
      · rw [h] at hb
        exact Bool.noConfusion hb
      · exact h
    obtain ⟨id, hid⟩ := Option.isSome_iff_exists.1 hs
    rw [pollTick_OB goos cfg status charge s hl hb,
      startShutdown_eq_some goos cfg _ id (by simpa [setERR, emit] using hid)]
    refine ⟨rfl, rfl, ?_, ?_, Nat.le_refl _⟩
    · simp [Sleep, emit, setERR, armCount]
    · simp [Sleep, emit, setERR, armToast]
  · have hb2 : Contains status "OB" = false := by simpa using hb
    by_cases hq : status = "?"
    · subst hq
      rw [pollTick_sentinel]
      refine ⟨rfl, rfl, ?_, ?_, Nat.le_refl _⟩
      · simp [armCount]
      · simp [armToast]
    · rw [pollTick_other goos cfg status charge s hq hl hb2]
      refine ⟨rfl, rfl, ?_, ?_, Nat.le_refl _⟩
      · simp [armCount]
      · simp [armToast]

/-- A pass of the poll loop with `OB` and without `OL` that finds no handle makes one timer. -/
theorem pollTick_arm (goos : String) (cfg : Config) (status charge : String) (s : State)
    (hl : Contains status "OL" = false) (hb : Contains status "OB" = true)
    (hs : s.shutdownTimer = none) :
    (pollTick goos cfg status charge s).shutdownTimer = some s.timers.length ∧
    (pollTick goos cfg status charge s).timers =
      s.timers ++ [{ deadline := s.now + (durationMs cfg.ShutdownDelay).toNat,
                     stopped := false, fired := false }] ∧
    armCount (pollTick goos cfg status charge s).trace = armCount s.trace + 1 ∧
    (pollTick goos cfg status charge s).trace.count armToast = s.trace.count armToast +
      (toasts goos cfg "Stromausfall" "Shutdown Timer gestartet").length ∧
    pendingCount (pollTick goos cfg status charge s) = pendingCount s + 1 := by
  rw [pollTick_OB goos cfg status charge s hl hb,
    startShutdown_eq_none goos cfg _ (by simpa [setERR, emit] using hs)]
  refine ⟨by simp [Sleep, emit, setERR], by simp [Sleep, emit, setERR], ?_, ?_, ?_⟩
  · simp only [Sleep, emit, setERR, armCount_append, armCount_toasts]
    simp [armCount]
  · simp only [Sleep, emit, setERR, List.count_append, count_armToast_arm]
    simp [armToast]
  · simp [Sleep, emit, setERR, pendingCount, Timer.pending]

theorem run_cons (goos : String) (cfg : Config) (st : Step) (rest : List Step) (s : State) :
    run goos cfg (st :: rest) s = run goos cfg rest (step goos cfg s st) := rfl

theorem statuses_append (a b : List Step) : statuses (a ++ b) = statuses a ++ statuses b := by
  induction a with
  | nil => rfl
  | cons st rest ih =>
    rw [List.cons_append, statuses_cons st (rest ++ b), statuses_cons st rest, ih,
      List.append_assoc]

/-- A run without `OL` that has no `OB` either, or starts with the handle set, changes
nothing about the timers. -/
theorem run_frame (goos : String) (cfg : Config) (steps : List Step) (s : State)
    (hOL : ∀ t ∈ statuses steps, Contains t "OL" = false)
    (h : (∀ t ∈ statuses steps, Contains t "OB" = false) ∨ s.shutdownTimer.isSome = true) :
    Frame s (run goos cfg steps s) := by
  induction steps generalizing s with
  | nil => exact Frame.rfl s
  | cons st rest ih =>
    rw [run_cons]
    have hOL2 : ∀ t ∈ statuses rest, Contains t "OL" = false := fun t ht =>
      hOL t (by rw [statuses_cons st rest]; exact List.mem_append_right _ ht)
    have hstep : Frame s (step goos cfg s st) := by
      cases st with
      | tick status charge =>
        refine pollTick_frame goos cfg status charge s (hOL status (by simp [statuses])) ?_
        rcases h with h | h
        · exact Or.inl (h status (by simp [statuses]))
        · exact Or.inr h
      | elapse d => exact elapse_frame d s
      | fire id => exact fireTimer_frame goos cfg id s
    refine Frame.trans hstep (ih _ hOL2 ?_)
    rcases h with h | h
    · exact Or.inl fun t ht =>
        h t (by rw [statuses_cons st rest]; exact List.mem_append_right _ ht)
    · right
      rw [hstep.1]
      exact h

/-- A run without `OL` and with some `OB`, started without a handle, makes one timer. -/
theorem run_arm_once (goos : String) (cfg : Config) (steps : List Step) (s : State)
    (hs : s.shutdownTimer = none)
    (hOL : ∀ t ∈ statuses steps, Contains t "OL" = false)
    (hOB : ∃ t ∈ statuses steps, Contains t "OB" = true) :
    (run goos cfg steps s).shutdownTimer = some s.timers.length ∧
    (run goos cfg steps s).timers.length = s.timers.length + 1 ∧
    armCount (run goos cfg steps s).trace = armCount s.trace + 1 ∧
    (run goos cfg steps s).trace.count armToast = s.trace.count armToast +
      (toasts goos cfg "Stromausfall" "Shutdown Timer gestartet").length ∧
    pendingCount (run goos cfg steps s) ≤ pendingCount s + 1 := by
  induction steps generalizing s with
  | nil =>
    obtain ⟨t, ht, _⟩ := hOB
    simp [statuses] at ht
  | cons st rest ih =>
    rw [run_cons]
    have hOL2 : ∀ t ∈ statuses rest, Contains t "OL" = false := fun t ht =>
      hOL t (by rw [statuses_cons st rest]; exact List.mem_append_right _ ht)
    have harm : ∀ status charge, st = .tick status charge → Contains status "OB" = true →
        (run goos cfg rest (step goos cfg s st)).shutdownTimer = some s.timers.length ∧
        (run goos cfg rest (step goos cfg s st)).timers.length = s.timers.length + 1 ∧
        armCount (run goos cfg rest (step goos cfg s st)).trace = armCount s.trace + 1 ∧
        (run goos cfg rest (step goos cfg s st)).trace.count armToast =
          s.trace.count armToast +
            (toasts goos cfg "Stromausfall" "Shutdown Timer gestartet").length ∧
        pendingCount (run goos cfg rest (step goos cfg s st)) ≤ pendingCount s + 1 := by
      intro status charge hst hb
      subst hst
      have hl : Contains status "OL" = false := hOL status (by simp [statuses])
      obtain ⟨a1, a2, a3, a4, a5⟩ := pollTick_arm goos cfg status charge s hl hb hs
      have hf := run_frame goos cfg rest (pollTick goos cfg status charge s) hOL2
        (Or.inr (by rw [a1]; rfl))
      obtain ⟨f1, f2, f3, f4, f5⟩ := hf
      refine ⟨?_, ?_, ?_, ?_, ?_⟩
      · show (run goos cfg rest (pollTick goos cfg status charge s)).shutdownTimer = _
        rw [f1, a1]
      · show (run goos cfg rest (pollTick goos cfg status charge s)).timers.length = _
        rw [f2, a2]
        simp
      · show armCount (run goos cfg rest (pollTick goos cfg status charge s)).trace = _
        rw [f3, a3]
      · show (run goos cfg rest (pollTick goos cfg status charge s)).trace.count armToast = _
        rw [f4, a4]
      · show pendingCount (run goos cfg rest (pollTick goos cfg status charge s)) ≤ _
        omega
    have hskip : Frame s (step goos cfg s st) →
        (∃ t ∈ statuses rest, Contains t "OB" = true) →
        (run goos cfg rest (step goos cfg s st)).shutdownTimer = some s.timers.length ∧
        (run goos cfg rest (step goos cfg s st)).timers.length = s.timers.length + 1 ∧
        armCount (run goos cfg rest (step goos cfg s st)).trace = armCount s.trace + 1 ∧
        (run goos cfg rest (step goos cfg s st)).trace.count armToast =
          s.trace.count armToast +
            (toasts goos cfg "Stromausfall" "Shutdown Timer gestartet").length ∧
        pendingCount (run goos cfg rest (step goos cfg s st)) ≤ pendingCount s + 1 := by
      intro hf hOB2
      obtain ⟨f1, f2, f3, f4, f5⟩ := hf
      obtain ⟨i1, i2, i3, i4, i5⟩ := ih (step goos cfg s st) (by rw [f1, hs]) hOL2 hOB2
      refine ⟨by rw [i1, f2], by rw [i2, f2], by rw [i3, f3], by rw [i4, f4], by omega⟩
    cases st with
    | tick status charge =>
      by_cases hb : Contains status "OB" = true
      · exact harm status charge rfl hb
      · have hb2 : Contains status "OB" = false := by simpa using hb
        refine hskip (pollTick_frame goos cfg status charge s
          (hOL status (by simp [statuses])) (Or.inl hb2)) ?_
        obtain ⟨t, ht, htb⟩ := hOB
        simp only [statuses, List.mem_cons] at ht
        rcases ht with rfl | ht
        · exact absurd htb hb
        · exact ⟨t, ht, htb⟩
    | elapse d =>
      refine hskip (elapse_frame d s) ?_
      obtain ⟨t, ht, htb⟩ := hOB
      exact ⟨t, by simpa [statuses] using ht, htb⟩
    | fire id =>
      refine hskip (fireTimer_frame goos cfg id s) ?_
      obtain ⟨t, ht, htb⟩ := hOB
      exact ⟨t, by simpa [statuses] using ht, htb⟩

/-- A run without `OL`, started without a handle, makes at most one timer. -/
theorem run_arm_le_one (goos : String) (cfg : Config) (steps : List Step) (s : State)
    (hs : s.shutdownTimer = none)
    (hOL : ∀ t ∈ statuses steps, Contains t "OL" = false) :
    (run goos cfg steps s).timers.length ≤ s.timers.length + 1 ∧
    pendingCount (run goos cfg steps s) ≤ pendingCount s + 1 := by
  by_cases hOB : ∃ t ∈ statuses steps, Contains t "OB" = true
  · obtain ⟨_, h2, _, _, h5⟩ := run_arm_once goos cfg steps s hs hOL hOB
    exact ⟨by omega, h5⟩
  · have hno : ∀ t ∈ statuses steps, Contains t "OB" = false := by
      intro t ht
      by_contra hc
      exact hOB ⟨t, ht, by simpa using hc⟩
    obtain ⟨_, h2, _, _, h5⟩ := run_frame goos cfg steps s hOL (Or.inl hno)
    exact ⟨by omega, by omega⟩

theorem cancelShutdown_now (goos : String) (cfg : Config) (s : State) :
    (cancelShutdown goos cfg s).now = s.now := by
  cases hs : s.shutdownTimer with
  | none => rw [cancelShutdown_eq_none goos cfg s hs]
  | some id => rw [cancelShutdown_eq_some goos cfg s id hs]

theorem startShutdown_now (goos : String) (cfg : Config) (s : State) :
    (startShutdown goos cfg s).now = s.now := by
  cases hs : s.shutdownTimer with
  | none => rw [startShutdown_eq_none goos cfg s hs]
  | some id => rw [startShutdown_eq_some goos cfg s id hs]

/-- The clock after a pass of the poll loop: it has slept, except on the sentinel. -/
theorem pollTick_now (goos : String) (cfg : Config) (status charge : String) (s : State) :
    (pollTick goos cfg status charge s).now =
      if status = "?" then s.now else s.now + (durationMs cfg.PollInterval).toNat := by
  by_cases hq : status = "?"
  · subst hq
    simp [pollTick_sentinel]
  · by_cases hl : Contains status "OL" = true
    · rw [pollTick_OL goos cfg status charge s hl]
      simp [hq, Sleep, emit, cancelShutdown_now, setOK]
    · have hl2 : Contains status "OL" = false := by simpa using hl
      by_cases hb : Contains status "OB" = true
      · rw [pollTick_OB goos cfg status charge s hl2 hb]
        simp [hq, Sleep, emit, startShutdown_now, setERR]
      · have hb2 : Contains status "OB" = false := by simpa using hb
        simp [pollTick_other goos cfg status charge s hq hl2 hb2, hq]

theorem fireTimer_now (goos : String) (cfg : Config) (id : Nat) (s : State) :
    (fireTimer goos cfg id s).now = s.now := by
  rcases fireTimer_cases goos cfg id s with h | ⟨t, argv, _, _, _, h⟩ <;> rw [h]

theorem step_now_le (goos : String) (cfg : Config) (s : State) (st : Step) :
    s.now ≤ (step goos cfg s st).now := by
  cases st with
  | tick status charge =>
    show s.now ≤ (pollTick goos cfg status charge s).now
    rw [pollTick_now]
    split <;> omega
  | elapse d => exact Nat.le_add_right _ _
  | fire id =>
    show s.now ≤ (fireTimer goos cfg id s).now
    rw [fireTimer_now]

/-- The clock never goes back. -/
theorem run_now_le (goos : String) (cfg : Config) (steps : List Step) (s : State) :
    s.now ≤ (run goos cfg steps s).now := by
  induction steps generalizing s with
  | nil => exact Nat.le_refl _
  | cons st rest ih =>
    rw [run_cons]
    exact Nat.le_trans (step_now_le goos cfg s st) (ih _)

/-- The timers after a pass of the poll loop: as before, one more, or the one behind the
handle stopped. -/
theorem pollTick_timers_cases (goos : String) (cfg : Config) (status charge : String)
    (s : State) :
    (pollTick goos cfg status charge s).timers = s.timers ∨
    (∃ t, (pollTick goos cfg status charge s).timers = s.timers ++ [t]) ∨
    (∃ id, (pollTick goos cfg status charge s).timers = modifyAt Timer.Stop id s.timers) := by
  by_cases hq : status = "?"
  · subst hq
    left
    simp [pollTick_sentinel]
  · by_cases hl : Contains status "OL" = true
    · rw [pollTick_OL goos cfg status charge s hl]
      cases hs : s.shutdownTimer with
      | none =>
        left
        simp [Sleep, emit, setOK, cancelShutdown, hs]
      | some id =>
        right
        right
        exact ⟨id, by simp [Sleep, emit, setOK, cancelShutdown, hs, notify_eq]⟩
    · have hl2 : Contains status "OL" = false := by simpa using hl
      by_cases hb : Contains status "OB" = true
      · rw [pollTick_OB goos cfg status charge s hl2 hb]
        cases hs : s.shutdownTimer with
        | none =>
          right
          left
          exact ⟨Timer.mk (s.now + (durationMs cfg.ShutdownDelay).toNat) false false,
            by simp [Sleep, emit, setERR, startShutdown, hs, notify_eq]⟩
        | some id =>
          left
          simp [Sleep, emit, setERR, startShutdown, hs]
      · have hb2 : Contains status "OB" = false := by simpa using hb
        left
        simp [pollTick_other goos cfg status charge s hq hl2 hb2]

/-- A timer that was stopped before it fired stays so, whatever happens next. -/
theorem run_stopped_stays (goos : String) (cfg : Config) (steps : List Step) (s : State)
    (id : Nat) (h : ∃ t, s.timers[id]? = some t ∧ t.stopped = true ∧ t.fired = false) :
    ∃ t, (run goos cfg steps s).timers[id]? = some t ∧ t.stopped = true ∧ t.fired = false := by
  induction steps generalizing s with
  | nil => exact h
  | cons st rest ih =>
    rw [run_cons]
    apply ih
    obtain ⟨t, ht, hst, hfi⟩ := h
    cases st with
    | tick status charge =>
      rw [show step goos cfg s (.tick status charge) = pollTick goos cfg status charge s
        from rfl]
      rcases pollTick_timers_cases goos cfg status charge s with h1 | ⟨u, h1⟩ | ⟨j, h1⟩
      · rw [h1]
        exact ⟨t, ht, hst, hfi⟩
      · rw [h1]
        have hlt : id < s.timers.length := by
          by_contra hc
          rw [List.getElem?_eq_none (by omega)] at ht
          cases ht
        rw [List.getElem?_append_left hlt]
        exact ⟨t, ht, hst, hfi⟩
      · rw [h1, getElem?_modifyAt]
        by_cases hj : j = id
        · refine ⟨t.Stop, by simp [hj, ht], ?_, ?_⟩ <;> simp [Timer.Stop, hfi, hst]
        · exact ⟨t, by simp [hj, ht], hst, hfi⟩
    | elapse d => exact ⟨t, ht, hst, hfi⟩
    | fire j =>
      rw [show step goos cfg s (.fire j) = fireTimer goos cfg j s from rfl]
      rcases fireTimer_cases goos cfg j s with h1 | ⟨u, argv, hu, hpend, _, h1⟩
      · rw [h1]
        exact ⟨t, ht, hst, hfi⟩
      · rw [h1]
        show ∃ t, (modifyAt _ j s.timers)[id]? = some t ∧ _
        rw [getElem?_modifyAt]
        by_cases hj : j = id
        · subst hj
          rw [ht] at hu
          cases hu
          simp [Timer.pending, hst] at hpend
        · exact ⟨t, by simp [hj, ht], hst, hfi⟩

/-- Steps other than ticks, ending before a timer is due, leave that timer, the handle and
the number of timers as they are. -/
theorem run_before_deadline (goos : String) (cfg : Config) (mid : List Step) (s : State)
    (id : Nat) (t : Timer) (hmid : ∀ st ∈ mid, st.isTick = false)
    (ht : s.timers[id]? = some t) (hnow : (run goos cfg mid s).now < t.deadline) :
    (run goos cfg mid s).timers[id]? = some t ∧
    (run goos cfg mid s).shutdownTimer = s.shutdownTimer ∧
    (run goos cfg mid s).timers.length = s.timers.length := by
  induction mid generalizing s with
  | nil => exact ⟨ht, rfl, rfl⟩
  | cons st rest ih =>
    rw [run_cons] at hnow ⊢
    have hrest : ∀ st ∈ rest, st.isTick = false := fun x hx => hmid x (by simp [hx])
    have hs1 : (step goos cfg s st).now < t.deadline :=
      Nat.lt_of_le_of_lt (run_now_le goos cfg rest _) hnow
    have hs0 : s.now < t.deadline := Nat.lt_of_le_of_lt (step_now_le goos cfg s st) hs1
    have hstep : (step goos cfg s st).timers[id]? = some t ∧
        (step goos cfg s st).shutdownTimer = s.shutdownTimer ∧
        (step goos cfg s st).timers.length = s.timers.length := by
      cases st with
      | tick status charge =>
        have := hmid (.tick status charge) (by simp)
        simp [Step.isTick] at this
      | elapse d => exact ⟨ht, rfl, rfl⟩
      | fire j =>
        rw [show step goos cfg s (.fire j) = fireTimer goos cfg j s from rfl]
        rcases fireTimer_cases goos cfg j s with h1 | ⟨u, argv, hu, _, hdue, h1⟩
        · rw [h1]
          exact ⟨ht, rfl, rfl⟩
        · rw [h1]
          refine ⟨?_, rfl, by simp [length_modifyAt]⟩
          show (modifyAt _ j s.timers)[id]? = some t
          rw [getElem?_modifyAt]
          by_cases hj : j = id
          · subst hj
            rw [ht] at hu
            cases hu
            omega
          · simp [hj, ht]
    obtain ⟨h1, h2, h3⟩ := ih (step goos cfg s st) hrest hstep.1 hnow
    exact ⟨h1, h2.trans hstep.2.1, h3.trans hstep.2.2⟩

/-! ## The shutdown timer in the poll loop -/

/-- C2: in a run started without a handle whose ticks hold no `OL` and of which one holds
`OB` (time may go by and the timer may fire in between), `time.AfterFunc` is called once,
one timer is made and `startShutdown` sends its toast once (when toasts are shown at all);
after every prefix of the run at most one timer has been made and at most one more timer is
pending than at the start; and `startShutdown` on a state with a handle changes nothing. -/
theorem arm_idempotent (goos : String) (cfg : Config) (s0 : State) (steps : List Step)
    (hidle : s0.shutdownTimer = none)
    (hOL : ∀ t ∈ statuses steps, Contains t "OL" = false)
    (hOB : ∃ t ∈ statuses steps, Contains t "OB" = true) :
    armCount (run goos cfg steps s0).trace = armCount s0.trace + 1 ∧
    (run goos cfg steps s0).timers.length = s0.timers.length + 1 ∧
    (run goos cfg steps s0).trace.count armToast = s0.trace.count armToast +
      (toasts goos cfg "Stromausfall" "Shutdown Timer gestartet").length ∧
    (∀ pre post, steps = pre ++ post →
      (run goos cfg pre s0).timers.length ≤ s0.timers.length + 1 ∧
      pendingCount (run goos cfg pre s0) ≤ pendingCount s0 + 1) ∧
    (∀ s id, s.shutdownTimer = some id → startShutdown goos cfg s = s) := by
  obtain ⟨_, h2, h3, h4, _⟩ := run_arm_once goos cfg steps s0 hidle hOL hOB
  refine ⟨h3, h2, h4, ?_, fun s id h => startShutdown_eq_some goos cfg s id h⟩
  intro pre post hsplit
  refine run_arm_le_one goos cfg pre s0 hidle fun t ht => hOL t ?_
  rw [hsplit, statuses_append]
  exact List.mem_append_left _ ht

/-- C2 on a run of three `OB` ticks, a `?` tick and a timer that fires: one `AfterFunc`. -/
theorem arm_idempotent_witness :
    armCount (run "windows" defaultConfig
      [.tick "OB" "55", .elapse 1, .tick "OB DISCHRG" "54", .tick "?" "?",
        .elapse 120000000000, .fire 0, .tick "OB LB" "3"] State.init).trace =
      armCount State.init.trace + 1 :=
  (arm_idempotent "windows" defaultConfig State.init
    [.tick "OB" "55", .elapse 1, .tick "OB DISCHRG" "54", .tick "?" "?",
      .elapse 120000000000, .fire 0, .tick "OB LB" "3"] rfl (by decide) (by decide)).1

/-- C10: in a run started without a handle, the handle is set at the end exactly when the
polled statuses are `pre ++ st :: post` with `st` holding `OB` and not `OL` and no status of
`post` holding `OL` or `OB`. A tick whose status is `?` or holds neither code leaves the
handle and the timers as they are, and a tick whose status holds both codes leaves no
handle and makes no timer. -/
theorem handle_set_iff_last_code_OB (goos : String) (cfg : Config) (s0 : State)
    (steps : List Step) (hidle : s0.shutdownTimer = none) :
    ((run goos cfg steps s0).shutdownTimer.isSome = true ↔
      ∃ pre st post, statuses steps = pre ++ st :: post ∧ Contains st "OB" = true ∧
        Contains st "OL" = false ∧
        ∀ t ∈ post, Contains t "OL" = false ∧ Contains t "OB" = false) ∧
    (∀ (s : State) (status charge : String),
      status = "?" ∨ (Contains status "OL" = false ∧ Contains status "OB" = false) →
      (pollTick goos cfg status charge s).shutdownTimer = s.shutdownTimer ∧
      (pollTick goos cfg status charge s).timers = s.timers) ∧
    (∀ (s : State) (status charge : String),
      Contains status "OL" = true → Contains status "OB" = true →
      (pollTick goos cfg status charge s).shutdownTimer = none ∧
      (pollTick goos cfg status charge s).timers.length = s.timers.length) := by
  refine ⟨?_, ?_, ?_⟩
  · rw [run_isSome, hidle, lastCodeOB_iff]
    simp
  · intro s status charge h
    have hcodes : Contains status "OL" = false ∧ Contains status "OB" = false := by
      rcases h with h | h
      · subst h
        exact ⟨contains_sentinel_OL, contains_sentinel_OB⟩
      · exact h
    by_cases hq : status = "?"
    · subst hq
      simp [pollTick_sentinel]
    · simp [pollTick_other goos cfg status charge s hq hcodes.1 hcodes.2]
  · intro s status charge hl _
    rw [pollTick_OL goos cfg status charge s hl]
    cases hs : s.shutdownTimer with
    | none => simp [Sleep, emit, setOK, cancelShutdown, hs]
    | some id => simp [Sleep, emit, setOK, cancelShutdown, hs, notify_eq, length_modifyAt]

/-- C10 on the run `OL`, `OB DISCHRG`, `?`, `CHRG`: the handle is set at the end. -/
theorem handle_set_iff_last_code_OB_witness :
    (run "windows" defaultConfig
      [.tick "OL" "100", .tick "OB DISCHRG" "90", .tick "?" "?", .tick "CHRG" "91"]
      State.init).shutdownTimer.isSome = true :=
  (handle_set_iff_last_code_OB "windows" defaultConfig State.init
    [.tick "OL" "100", .tick "OB DISCHRG" "90", .tick "?" "?", .tick "CHRG" "91"] rfl).1.2
    ⟨["OL"], "OB DISCHRG", ["?", "CHRG"], rfl, by decide, by decide, by decide⟩

theorem contains_OB_OL : Contains "OB" "OL" = false := by decide

theorem contains_OB_OB : Contains "OB" "OB" = true := by decide

theorem contains_OL_OL : Contains "OL" "OL" = true := by decide

/-- C1 as stated fails: with `ShutdownDelay` = 9223372036855 ms the product with
`time.Millisecond` wraps to a negative duration, the timer made by the `OB` tick is due at
once and fires, and the `OL` tick processed 10 s later, long before the configured delay
has run out, finds the shutdown already run. -/
theorem cancel_before_configured_delay_can_fire :
    ¬ ∀ (goos : String) (cfg : Config) (s0 : State) (charge1 charge2 : String)
        (mid : List Step),
        s0.shutdownTimer = none → (∀ st ∈ mid, st.isTick = false) →
        (run goos cfg mid (pollTick goos cfg "OB" charge1 s0)).now <
          s0.now + (cfg.ShutdownDelay * Millisecond).toNat →
        hasFired s0.timers.length (pollTick goos cfg "OL" charge2
          (run goos cfg mid (pollTick goos cfg "OB" charge1 s0))) = false := by
  intro h
  have h1 := h "windows" { defaultConfig with ShutdownDelay := 9223372036855 } State.init
    "55" "54" [.fire 0] rfl (by decide) (by decide)
  revert h1
  decide

/-- C1, amended: let the configured delay in nanoseconds fit in 64 bits. From a state
without a handle, whatever the charges read, a tick with status `OB` calls `time.AfterFunc`
with the configured delay: a new pending timer due that delay after the arming is added to
the timers and the handle is set to it (`Idle` to `Armed`). Let time go by and the runtime
try to fire timers, and let a tick with status `OL` be processed before the configured
delay has run out since the arming: the timer is then still pending behind the handle, the
tick calls `Stop` on it, which marks it stopped and unfired, and clears the handle (`Idle`),
and in every continuation of the run that timer stays stopped and its function never
starts. -/
theorem cancel_before_delay_never_fires (goos : String) (cfg : Config) (s0 : State)
    (charge1 charge2 : String) (mid : List Step)
    (hidle : s0.shutdownTimer = none)
    (hmid : ∀ st ∈ mid, st.isTick = false)
    (hrange : cfg.ShutdownDelay * Millisecond < 2 ^ 63)
    (hbefore : (run goos cfg mid (pollTick goos cfg "OB" charge1 s0)).now <
      s0.now + (cfg.ShutdownDelay * Millisecond).toNat) :
    schedulerState s0 = .Idle ∧
    (pollTick goos cfg "OB" charge1 s0).shutdownTimer = some s0.timers.length ∧
    (pollTick goos cfg "OB" charge1 s0).timers = s0.timers ++
      [Timer.mk (s0.now + (cfg.ShutdownDelay * Millisecond).toNat) false false] ∧
    Event.afterFunc s0.timers.length (cfg.ShutdownDelay * Millisecond) ∈
      (pollTick goos cfg "OB" charge1 s0).trace.drop s0.trace.length ∧
    schedulerState (pollTick goos cfg "OB" charge1 s0) = .Armed ∧
    (run goos cfg mid (pollTick goos cfg "OB" charge1 s0)).shutdownTimer =
      some s0.timers.length ∧
    (run goos cfg mid (pollTick goos cfg "OB" charge1 s0)).timers[s0.timers.length]? =
      some (Timer.mk (s0.now + (cfg.ShutdownDelay * Millisecond).toNat) false false) ∧
    (pollTick goos cfg "OL" charge2
        (run goos cfg mid (pollTick goos cfg "OB" charge1 s0))).trace =
      (run goos cfg mid (pollTick goos cfg "OB" charge1 s0)).trace ++
        [.read "ups.status", .read "battery.charge", .setOK, .stop s0.timers.length] ++
        toasts goos cfg "Stromversorgung" "Shutdown abgebrochen" ++
        [.setTooltip ("USV: " ++ cfg.UPSName ++ "\nStatus: " ++ "Online" ++ "\nLadung: " ++
            charge2 ++ "%"),
          .sleep (durationMs cfg.PollInterval)] ∧
    (pollTick goos cfg "OL" charge2
      (run goos cfg mid (pollTick goos cfg "OB" charge1 s0))).shutdownTimer = none ∧
    (pollTick goos cfg "OL" charge2
      (run goos cfg mid (pollTick goos cfg "OB" charge1 s0))).timers[s0.timers.length]? =
      some (Timer.mk (s0.now + (cfg.ShutdownDelay * Millisecond).toNat) true false) ∧
    schedulerState (pollTick goos cfg "OL" charge2
      (run goos cfg mid (pollTick goos cfg "OB" charge1 s0))) = .Idle ∧
    ∀ rest : List Step,
      (∃ t, (run goos cfg rest (pollTick goos cfg "OL" charge2
          (run goos cfg mid (pollTick goos cfg "OB" charge1 s0)))).timers[s0.timers.length]? =
        some t ∧ t.stopped = true ∧ t.fired = false) ∧
      hasFired s0.timers.length (run goos cfg rest (pollTick goos cfg "OL" charge2
        (run goos cfg mid (pollTick goos cfg "OB" charge1 s0)))) = false := by
  have hM : Millisecond = 1000000 := rfl
  have hle1 := step_now_le goos cfg s0 (.tick "OB" charge1)
  have hle2 := run_now_le goos cfg mid (pollTick goos cfg "OB" charge1 s0)
  have hle1b : s0.now ≤ (pollTick goos cfg "OB" charge1 s0).now := hle1
  have hpos : 0 < cfg.ShutdownDelay := by
    rw [hM] at hbefore
    omega
  have hdur : durationMs cfg.ShutdownDelay = cfg.ShutdownDelay * Millisecond := by
    rw [hM] at hrange ⊢
    exact durationMs_of_range cfg.ShutdownDelay (by omega) hrange
  rw [← hdur] at hbefore ⊢
  obtain ⟨a1, a2, _, _, _⟩ :=
    pollTick_arm goos cfg "OB" charge1 s0 contains_OB_OL contains_OB_OB hidle
  have ht1 : (pollTick goos cfg "OB" charge1 s0).timers[s0.timers.length]? =
      some (Timer.mk (s0.now + (durationMs cfg.ShutdownDelay).toNat) false false) := by
    rw [a2]
    simp
  have htr1 : Event.afterFunc s0.timers.length (durationMs cfg.ShutdownDelay) ∈
      (pollTick goos cfg "OB" charge1 s0).trace.drop s0.trace.length := by
    rw [pollTick_OB goos cfg "OB" charge1 s0 contains_OB_OL contains_OB_OB,
      startShutdown_eq_none goos cfg _ (by simpa [setERR, emit] using hidle)]
    simp [Sleep, emit, setERR]
  obtain ⟨b1, b2, _⟩ := run_before_deadline goos cfg mid (pollTick goos cfg "OB" charge1 s0)
    s0.timers.length _ hmid ht1 hbefore
  rw [a1] at b2
  have hs3 := pollTick_OL goos cfg "OL" charge2
    (run goos cfg mid (pollTick goos cfg "OB" charge1 s0)) contains_OL_OL
  rw [cancelShutdown_eq_some goos cfg _ s0.timers.length (by simpa [setOK, emit] using b2)]
    at hs3
  have ht3 : (pollTick goos cfg "OL" charge2
      (run goos cfg mid (pollTick goos cfg "OB" charge1 s0))).timers[s0.timers.length]? =
      some (Timer.mk (s0.now + (durationMs cfg.ShutdownDelay).toNat) true false) := by
    rw [hs3]
    simp [Sleep, emit, setOK, getElem?_modifyAt, b1, Timer.Stop]
  refine ⟨by simp [schedulerState, hidle], a1, a2, htr1, by simp [schedulerState, a1, ht1],
    b2, b1, ?_, ?_, ht3, ?_, ?_⟩
  · rw [hs3]
    simp [Sleep, emit, setOK]
  · rw [hs3]
    simp [Sleep, emit, setOK]
  · rw [hs3]
    simp [Sleep, emit, setOK, schedulerState]
  · intro rest
    obtain ⟨t, ht, hst, hfi⟩ := run_stopped_stays goos cfg rest _ s0.timers.length
      ⟨_, ht3, rfl, rfl⟩
    exact ⟨⟨t, ht, hst, hfi⟩, by simp [hasFired, ht, hfi]⟩

/-- C1, amended, with the default delay of 120 s: `OB` at charge 55, the sleep of 10 s,
3 s more and an attempt to fire the timer, then `OL`; 200 s later the timer is stopped and
has not fired. -/
theorem cancel_before_delay_never_fires_witness :
    (∃ t, (run "windows" defaultConfig [.elapse 200000000000, .fire 0]
        (pollTick "windows" defaultConfig "OL" "54"
          (run "windows" defaultConfig [.elapse 3000000000, .fire 0]
            (pollTick "windows" defaultConfig "OB" "55"
              State.init)))).timers[State.init.timers.length]? =
      some t ∧ t.stopped = true ∧ t.fired = false) ∧
    hasFired State.init.timers.length (run "windows" defaultConfig
      [.elapse 200000000000, .fire 0]
      (pollTick "windows" defaultConfig "OL" "54"
        (run "windows" defaultConfig [.elapse 3000000000, .fire 0]
          (pollTick "windows" defaultConfig "OB" "55" State.init)))) = false :=
  (cancel_before_delay_never_fires "windows" defaultConfig State.init "55" "54"
    [.elapse 3000000000, .fire 0] rfl (by decide) (by decide) (by decide)).2.2.2.2.2.2.2.2.2.2.2
    [.elapse 200000000000, .fire 0]

/-! ## `cancelShutdown` -/

/-- C3 as stated fails: after an `OB` tick, the delay and the firing of the timer the
scheduler is `Fired`; `cancelShutdown` then moves it to `Idle` and sends its toast. -/
theorem cancel_in_fired_state_not_noop :
    ¬ ∀ (goos : String) (cfg : Config) (s : State),
        schedulerState s = .Idle ∨ schedulerState s = .Fired →
        schedulerState (cancelShutdown goos cfg s) = schedulerState s ∧
        (cancelShutdown goos cfg s).trace.count abortToast = s.trace.count abortToast := by
  intro h
  have h1 := h "windows" defaultConfig
    (run "windows" defaultConfig [.tick "OB" "55", .elapse 120000000000, .fire 0] State.init)
    (by decide)
  revert h1
  decide

/-- C3, amended: `cancelShutdown` changes nothing in the state `Idle`. In the states `Armed`
and `Fired` alike there is a handle; `cancelShutdown` calls `Stop` on its timer, clears the
handle, so that the state is `Idle`, and calls `notify` with `Shutdown abgebrochen`. -/
theorem cancelShutdown_by_handle (goos : String) (cfg : Config) (s : State) :
    (schedulerState s = .Idle → cancelShutdown goos cfg s = s) ∧
    (schedulerState s = .Armed ∨ schedulerState s = .Fired →
      ∃ id, s.shutdownTimer = some id ∧
        schedulerState (cancelShutdown goos cfg s) = .Idle ∧
        (cancelShutdown goos cfg s).timers = modifyAt Timer.Stop id s.timers ∧
        (cancelShutdown goos cfg s).trace = s.trace ++ [.stop id] ++
          toasts goos cfg "Stromversorgung" "Shutdown abgebrochen") := by
  cases hs : s.shutdownTimer with
  | none =>
    refine ⟨fun _ => cancelShutdown_eq_none goos cfg s hs, fun h => ?_⟩
    simp [schedulerState, hs] at h
  | some id =>
    refine ⟨fun h => ?_, fun _ => ⟨id, rfl, ?_, ?_, ?_⟩⟩
    · unfold schedulerState at h
      rw [hs] at h
      exfalso
      simp only at h
      cases ht : s.timers[id]? with
      | none => simp [ht] at h
      | some t =>
        rw [ht] at h
        by_cases hf : t.fired = true <;> simp [hf] at h
    · rw [cancelShutdown_eq_some goos cfg s id hs]
      simp [schedulerState]
    · rw [cancelShutdown_eq_some goos cfg s id hs]
    · rw [cancelShutdown_eq_some goos cfg s id hs]

/-- C3, amended, at the initial state (`Idle`) and at the state after an `OB` tick, the
delay and the firing of the timer (`Fired`). -/
theorem cancelShutdown_by_handle_witness :
    cancelShutdown "windows" defaultConfig State.init = State.init ∧
    ∃ id, (run "windows" defaultConfig [.tick "OB" "55", .elapse 120000000000, .fire 0]
        State.init).shutdownTimer = some id ∧
      schedulerState (cancelShutdown "windows" defaultConfig
        (run "windows" defaultConfig [.tick "OB" "55", .elapse 120000000000, .fire 0]
          State.init)) = .Idle ∧
      (cancelShutdown "windows" defaultConfig
        (run "windows" defaultConfig [.tick "OB" "55", .elapse 120000000000, .fire 0]
          State.init)).timers =
        modifyAt Timer.Stop id (run "windows" defaultConfig
          [.tick "OB" "55", .elapse 120000000000, .fire 0] State.init).timers ∧
      (cancelShutdown "windows" defaultConfig
        (run "windows" defaultConfig [.tick "OB" "55", .elapse 120000000000, .fire 0]
          State.init)).trace =
        (run "windows" defaultConfig [.tick "OB" "55", .elapse 120000000000, .fire 0]
          State.init).trace ++ [.stop id] ++
          toasts "windows" defaultConfig "Stromversorgung" "Shutdown abgebrochen" :=
  ⟨(cancelShutdown_by_handle "windows" defaultConfig State.init).1 (by decide),
    (cancelShutdown_by_handle "windows" defaultConfig
      (run "windows" defaultConfig [.tick "OB" "55", .elapse 120000000000, .fire 0]
        State.init)).2 (Or.inr (by decide))⟩

/-! ## The poll loop -/

/-- C6 as stated fails: the tick for the status `OFF`, which holds neither `OL` nor `OB`,
does not call `setERR`. -/
theorem other_status_no_setERR :
    ¬ ∀ (goos : String) (cfg : Config) (s : State) (status charge : String),
        status = "?" ∨ (Contains status "OL" = false ∧ Contains status "OB" = false) →
        Event.setERR ∈ (pollTick goos cfg status charge s).trace.drop s.trace.length := by
  intro h
  have h1 := h "windows" defaultConfig State.init "OFF" "100" (by decide)
  revert h1
  decide

/-- C6, amended: the tick for the sentinel `?` calls `setERR` and sets the tooltip of the
failed connection, and leaves the handle and the timers as they are. The tick for any other
status that holds neither `OL` nor `OB` calls neither `setERR` nor `setOK`: it shows the
status as read in the tooltip and sleeps, and leaves the handle and the timers as they
are. -/
theorem pollTick_no_code (goos : String) (cfg : Config) (s : State) (status charge : String) :
    (status = "?" →
      Event.setERR ∈ (pollTick goos cfg status charge s).trace.drop s.trace.length ∧
      Event.setTooltip "Verbindung fehlgeschlagen!\nPrüfe verbindung, oder Logindaten" ∈
        (pollTick goos cfg status charge s).trace.drop s.trace.length ∧
      (pollTick goos cfg status charge s).shutdownTimer = s.shutdownTimer ∧
      (pollTick goos cfg status charge s).timers = s.timers) ∧
    (status ≠ "?" → Contains status "OL" = false → Contains status "OB" = false →
      pollTick goos cfg status charge s =
        { s with
          now := s.now + (durationMs cfg.PollInterval).toNat
          trace := s.trace ++ [.read "ups.status", .read "battery.charge",
            .setTooltip ("USV: " ++ cfg.UPSName ++ "\nStatus: " ++ status ++ "\nLadung: " ++
              charge ++ "%"),
            .sleep (durationMs cfg.PollInterval)] }) := by
  refine ⟨fun h => ?_, fun hq hl hb => pollTick_other goos cfg status charge s hq hl hb⟩
  subst h
  rw [pollTick_sentinel goos cfg charge s]
  simp

/-- C6, amended, at the statuses `?` and `OFF`. -/
theorem pollTick_no_code_witness :
    (Event.setERR ∈ (pollTick "windows" defaultConfig "?" "?" State.init).trace.drop
        State.init.trace.length ∧
      Event.setTooltip "Verbindung fehlgeschlagen!\nPrüfe verbindung, oder Logindaten" ∈
        (pollTick "windows" defaultConfig "?" "?" State.init).trace.drop
          State.init.trace.length ∧
      (pollTick "windows" defaultConfig "?" "?" State.init).shutdownTimer =
        State.init.shutdownTimer ∧
      (pollTick "windows" defaultConfig "?" "?" State.init).timers = State.init.timers) ∧
    pollTick "windows" defaultConfig "OFF" "100" State.init =
      { State.init with
        now := State.init.now + (durationMs defaultConfig.PollInterval).toNat
        trace := State.init.trace ++ [.read "ups.status", .read "battery.charge",
          .setTooltip ("USV: " ++ defaultConfig.UPSName ++ "\nStatus: " ++ "OFF" ++
            "\nLadung: " ++ "100" ++ "%"),
          .sleep (durationMs defaultConfig.PollInterval)] } :=
  ⟨(pollTick_no_code "windows" defaultConfig State.init "?" "?").1 rfl,
    (pollTick_no_code "windows" defaultConfig State.init "OFF" "100").2
      (by decide) (by decide) (by decide)⟩

/-- C8 fails on the code: two ticks in a row that read the sentinel `?` for `ups.status`
leave the clock where it was and put no sleep between the reads of the first and the reads
of the second. -/
theorem sentinel_ticks_do_not_sleep (goos : String) (cfg : Config) (s : State)
    (charge1 charge2 : String) :
    (run goos cfg [.tick "?" charge1, .tick "?" charge2] s).now = s.now ∧
    (run goos cfg [.tick "?" charge1, .tick "?" charge2] s).trace = s.trace ++
      [.read "ups.status", .read "battery.charge", .setERR,
        .setTooltip "Verbindung fehlgeschlagen!\nPrüfe verbindung, oder Logindaten",
        .read "ups.status", .read "battery.charge", .setERR,
        .setTooltip "Verbindung fehlgeschlagen!\nPrüfe verbindung, oder Logindaten"] := by
  simp [run, step, pollTick_sentinel]

/-! ## The toast of `cancelShutdown` along a run -/

theorem toasts_on (goos : String) (cfg : Config) (title msg : String)
    (hn : cfg.EnableNotifications = true) (hg : goos = "windows") :
    toasts goos cfg title msg = [.toast title msg] := by
  simp [toasts, hn, hg]

theorem count_abortToast_toasts (goos : String) (cfg : Config) (title msg : String)
    (h : Event.toast title msg ≠ abortToast) :
    (toasts goos cfg title msg).count abortToast = 0 := by
  unfold toasts
  split
  · rw [List.count_singleton]
    have : (Event.toast title msg == abortToast) = false := by simpa using h
    simp [this]
  · rfl

theorem pollTick_abort_count (goos : String) (cfg : Config) (status charge : String)
    (s : State) (hn : cfg.EnableNotifications = true) (hg : goos = "windows") :
    (pollTick goos cfg status charge s).trace.count abortToast = s.trace.count abortToast +
      (if Contains status "OL" = true ∧ s.shutdownTimer.isSome = true then 1 else 0) := by
  by_cases hl : Contains status "OL" = true
  · rw [pollTick_OL goos cfg status charge s hl]
    cases hs : s.shutdownTimer with
    | none =>
      rw [cancelShutdown_eq_none goos cfg _ (by simpa [setOK, emit] using hs)]
      simp [Sleep, emit, setOK, abortToast]
    | some id =>
      rw [cancelShutdown_eq_some goos cfg _ id (by simpa [setOK, emit] using hs),
        toasts_on goos cfg _ _ hn hg]
      simp [Sleep, emit, setOK, abortToast, hl, List.count_append]
  · have hl2 : Contains status "OL" = false := by simpa using hl
    by_cases hb : Contains status "OB" = true
    · rw [pollTick_OB goos cfg status charge s hl2 hb]
      cases hs : s.shutdownTimer with
      | none =>
        rw [startShutdown_eq_none goos cfg _ (by simpa [setERR, emit] using hs)]
        simp only [Sleep, emit, setERR, List.count_append,
          count_abortToast_toasts goos cfg "Stromausfall" "Shutdown Timer gestartet"
            (by decide)]
        simp [abortToast, hl2]
      | some id =>
        rw [startShutdown_eq_some goos cfg _ id (by simpa [setERR, emit] using hs)]
        simp [Sleep, emit, setERR, abortToast, hl2]
    · have hb2 : Contains status "OB" = false := by simpa using hb
      by_cases hq : status = "?"
      · subst hq
        simp [pollTick_sentinel, abortToast, hl2]
      · simp [pollTick_other goos cfg status charge s hq hl2 hb2, abortToast, hl2]

theorem fireTimer_abort_count (goos : String) (cfg : Config) (id : Nat) (s : State) :
    (fireTimer goos cfg id s).trace.count abortToast = s.trace.count abortToast := by
  rcases fireTimer_cases goos cfg id s with h | ⟨t, argv, _, _, _, h⟩
  · rw [h]
  · rw [h]
    simp only [List.count_append,
      count_abortToast_toasts goos cfg "Shutdown" "PC wird jetzt heruntergefahren" (by decide)]
    simp [abortToast]

/-- The toasts of `cancelShutdown` in a run, counted from the polled statuses. -/
theorem run_abort_count (goos : String) (cfg : Config) (steps : List Step) (s : State)
    (hn : cfg.EnableNotifications = true) (hg : goos = "windows") :
    (run goos cfg steps s).trace.count abortToast =
      s.trace.count abortToast + restoreCount s.shutdownTimer.isSome (statuses steps) := by
  induction steps generalizing s with
  | nil => simp [run, statuses, restoreCount]
  | cons st rest ih =>
    rw [run_cons, ih]
    cases st with
    | tick status charge =>
      rw [show step goos cfg s (.tick status charge) = pollTick goos cfg status charge s
        from rfl, pollTick_abort_count goos cfg status charge s hn hg, pollTick_isSome]
      simp only [statuses, restoreCount]
      omega
    | elapse d => simp [step, statuses]
    | fire id =>
      rw [show step goos cfg s (.fire id) = fireTimer goos cfg id s from rfl,
        fireTimer_abort_count, fireTimer_shutdownTimer]
      simp [statuses]

theorem restoreCount_le_intoOnline (b : Bool) (prev : PowerState) (l : List String)
    (h : b = true → prev ≠ .Online) : restoreCount b l ≤ intoOnline prev l := by
  induction l generalizing b prev with
  | nil => simp [restoreCount, intoOnline]
  | cons st rest ih =>
    simp only [restoreCount, intoOnline]
    have hnext : codeStep b st = true → targetState st ≠ .Online := by
      intro hc
      unfold codeStep at hc
      unfold targetState
      by_cases hl : Contains st "OL" = true
      · simp [hl] at hc
      · by_cases hb : Contains st "OB" = true <;> simp [hl, hb]
    have hrest := ih (codeStep b st) (targetState st) hnext
    by_cases hc : Contains st "OL" = true ∧ b = true
    · have ht : targetState st = .Online ∧ prev ≠ .Online :=
        ⟨by simp [targetState, hc.1], h hc.2⟩
      rw [if_pos hc, if_pos ht]
      omega
    · rw [if_neg hc]
      omega

/-- C7 as stated fails: a first tick with status `OL` moves the power state from
`Connecting` into `Online`, and `cancelShutdown` sends no toast. -/
theorem abort_toasts_ne_into_online :
    ¬ ∀ (cfg : Config) (steps : List Step), cfg.EnableNotifications = true →
        (∀ st ∈ steps, st.isTick = true) →
        (run "windows" cfg steps State.init).trace.count abortToast =
          intoOnline .Connecting (statuses steps) := by
  intro h
  have h1 := h defaultConfig [.tick "OL" "100"] rfl (by decide)
  revert h1
  decide

/-- C7, amended: with notifications enabled (on Windows) and no handle at the start, the
number of toasts sent by `cancelShutdown` in a run equals the number of `OL` ticks whose
most recent earlier tick with a code was an `OB` tick without `OL`; that number is at most
the number of ticks that move the power state into `Online` from another state. -/
theorem abort_toasts_count (goos : String) (cfg : Config) (s0 : State) (steps : List Step)
    (hn : cfg.EnableNotifications = true) (hg : goos = "windows")
    (hidle : s0.shutdownTimer = none) :
    (run goos cfg steps s0).trace.count abortToast =
      s0.trace.count abortToast + restoreCount false (statuses steps) ∧
    restoreCount false (statuses steps) ≤ intoOnline .Connecting (statuses steps) := by
  refine ⟨?_, restoreCount_le_intoOnline false .Connecting _ (fun h => Bool.noConfusion h)⟩
  rw [run_abort_count goos cfg steps s0 hn hg, hidle]
  rfl

/-- C7, amended, on the run `OL`, `OB`, `?`, `OL`, `OL`: two moves into `Online` from
another state, one toast. -/
theorem abort_toasts_count_witness :
    (run "windows" defaultConfig
      [.tick "OL" "100", .tick "OB" "90", .tick "?" "?", .tick "OL" "91", .tick "OL" "92"]
      State.init).trace.count abortToast =
      State.init.trace.count abortToast + restoreCount false (statuses
        [.tick "OL" "100", .tick "OB" "90", .tick "?" "?", .tick "OL" "91", .tick "OL" "92"]) ∧
    restoreCount false (statuses
      [.tick "OL" "100", .tick "OB" "90", .tick "?" "?", .tick "OL" "91", .tick "OL" "92"]) ≤
      intoOnline .Connecting (statuses
        [.tick "OL" "100", .tick "OB" "90", .tick "?" "?", .tick "OL" "91", .tick "OL" "92"]) :=
  abort_toasts_count "windows" defaultConfig State.init
    [.tick "OL" "100", .tick "OB" "90", .tick "?" "?", .tick "OL" "91", .tick "OL" "92"]
    rfl rfl rfl

end UpsMonitor

